import Mathlib

/-!
# Eathy-Ops orchestration core — verification development

Shallow embedding of the orchestration core of the Eathy-Ops repository
(`src/eathy`): the scheduler's next-run computation, the publish client,
the pipeline's post-publish persistence, the collection aggregator's
history-based deduplication, the copywrite truncation, the article
selector, the style selector, and the image-generation loop.

Conventions of the embedding:
* Python strings are Lean `String`s; where character counts matter
  (truncation in the copywrite generator) they are `List Char`, since
  Python `len`/slicing work on code points exactly as `List.length` /
  `List.take` do on the list of characters.
* Fallible Python code (code that may raise) is embedded as
  `Except String α`; `.error` is a raised exception propagating to the
  caller, `.ok` a normal return.
* External effects (HTTP calls, `shutil.copy2`, `random.randint`) are
  passed in as explicit environment values describing their outcome,
  and where a claim is about which effects are performed, functions
  additionally return a trace of effect markers.
-/

namespace Eathy

/-! ## Scheduler (`src/eathy/scheduler.py`)

Wall-clock datetimes in the target timezone are modelled as absolute
minutes: a `datetime` on day `d` at `h:m` local is `d * 1440 + h * 60 + m`.
A `time` entry of `schedule_times` is its minute-of-day (`h * 60 + m`).
`local_now.date()` is then `now / 1440`, and
`datetime.combine(today + offset_days, base_time)` is
`(now / 1440 + offset_days) * 1440 + base_time`. -/

/-- The candidate list built by `_next_run`'s double loop, in the order the
Python code appends: for each `base_time` of `schedule_times` (outer loop),
for each `offset_days in (0, 1)` (inner loop), keep the combined datetime
when it is strictly after `local_now`. -/
def schedCandidates (now : Nat) (scheduleTimes : List Nat) : List Nat :=
  scheduleTimes.flatMap fun baseTime =>
    ([0, 1].map fun offsetDays => (now / 1440 + offsetDays) * 1440 + baseTime).filter
      fun dt => now < dt

/-- `_next_run`'s chosen base slot: `candidates[0]`, with the fallback to
tomorrow's first configured time when the candidate list is empty (the
Python comment itself notes that branch is unreachable). -/
def nextRunBase (now : Nat) (scheduleTimes : List Nat) : Nat :=
  match schedCandidates now scheduleTimes with
  | [] => (now / 1440 + 1) * 1440 + scheduleTimes.headD 0
  | c :: _ => c

/-- `_next_run`: the chosen base slot plus the sampled jitter offset
(`random.randint(-jitter_minutes, jitter_minutes)` is passed in as the
explicit sample `jitterSample`). -/
def nextRun (now : Nat) (scheduleTimes : List Nat) (jitterSample : Int) : Int :=
  (nextRunBase now scheduleTimes : Int) + jitterSample

end Eathy

namespace Eathy

/-- The chronologically earliest candidate strictly after `now`, i.e. the
minimum of the candidate set — what the specification says step 3 picks. -/
def earliestCandidate (now : Nat) (scheduleTimes : List Nat) : Option Nat :=
  (schedCandidates now scheduleTimes).min?

end Eathy

namespace Eathy

/-! ## Data model (`src/eathy/models.py`)

Frozen dataclasses become Lean structures.  Where a claim depends on
character counts (the copywrite truncation bounds), Python strings are
`List Char`: Python `len` and slicing operate on code points exactly as
`List.length` and `List.take` do. -/

/-- `ContentCategory` — the closed five-value category enum. -/
inductive ContentCategory
  | ingredientAnalysis
  | foodWarning
  | healthyAlternative
  | trendingTopic
  | brandTeardown
  deriving DecidableEq, Repr

/-- The `str`-enum value of each `ContentCategory` member. -/
def ContentCategory.value : ContentCategory → String
  | .ingredientAnalysis => "成分分析"
  | .foodWarning => "食品避雷"
  | .healthyAlternative => "健康替代"
  | .trendingTopic => "热点话题"
  | .brandTeardown => "品牌拆解"

/-- `PublishStatus`. -/
inductive PublishStatus
  | pending
  | published
  | failed
  | dryRun
  deriving DecidableEq, Repr

/-- The `str`-enum value of each `PublishStatus` member. -/
def PublishStatus.value : PublishStatus → String
  | .pending => "pending"
  | .published => "published"
  | .failed => "failed"
  | .dryRun => "dry_run"

/-- `Article` (the fields the embedded operations consume).
`published_at` is an ISO-8601 string in the source, compared
lexicographically when sorting; it is modelled as a `Nat` ordering key. -/
structure Article where
  id : String
  title : String
  url : String
  sourceName : String
  language : String
  summary : String
  publishedAt : Nat
  deriving DecidableEq, Repr

/-- `XhsCopywrite`. Title and body are `List Char` so that the truncation
bounds are about Python's code-point counts. -/
structure XhsCopywrite where
  title : List Char
  body : List Char
  hashtags : List (List Char)
  category : ContentCategory
  sourceArticleId : String
  deriving DecidableEq, Repr

/-- `GeneratedImage`. The `path` is the file name the generator chose. -/
structure GeneratedImage where
  path : String
  promptUsed : String
  templateName : String
  deriving DecidableEq, Repr

/-- `PublishResult`. -/
structure PublishResult where
  status : PublishStatus
  publishedAt : String
  copywrite : XhsCopywrite
  images : List GeneratedImage
  noteId : String := ""
  errorMessage : String := ""
  deriving DecidableEq, Repr

end Eathy

namespace Eathy

/-! ## Publish client (`src/eathy/publish/xhs.py`, `XhsPublisher.publish`)

The external world of one `publish` call is an explicit environment:
the boolean the login check evaluates to (`check_login` swallows every
exception and returns a `bool`, so it is modelled as a value, not a
fallible action), the per-image outcome of `shutil.copy2` when a
host-to-container remap directory is configured, and the outcome of the
remote `tools/call` invocation.  `publish` also returns the trace of
external actions it performed, so that dry-run purity ("no login check,
no network call, no file copy") is a statement about the trace. -/

/-- Outcome of the remote `publish_content` call (`_call_mcp_tool`):
either a result whose first content item has text `text`, or an
exception carrying `str(exc)` and `type(exc).__name__`.  Unreachable
host, HTTP error status, missing `Mcp-Session-Id`, malformed JSON-RPC
reply and remote-side `error` objects all surface as the exception
case. -/
inductive RemoteOutcome
  | result (text : String)
  | exn (message : String) (typeName : String)
  deriving DecidableEq, Repr

/-- Environment of one `publish` call. `copyOk i` tells whether
`shutil.copy2` succeeds on the `i`-th image. -/
structure PublishEnv where
  loginOk : Bool
  copyOk : Nat → Bool
  remote : RemoteOutcome

/-- External actions `publish` can perform. -/
inductive PubEffect
  | loginCheck
  | fileCopy (i : Nat)
  | remoteCall
  deriving DecidableEq, Repr

/-- The `for img in images: shutil.copy2(img.path, dest)` loop when a
remap directory is configured: copies image `start`, `start+1`, … in
order; the first failing copy raises and aborts the loop. -/
def copyImagesLoop (copyOk : Nat → Bool) : Nat → Nat → Except String Unit × List PubEffect
  | _, 0 => (.ok (), [])
  | i, n + 1 =>
    if copyOk i then
      let rest := copyImagesLoop copyOk (i + 1) n
      (rest.1, .fileCopy i :: rest.2)
    else
      (.error "shutil.copy2 failed", [.fileCopy i])

/-- The fixed message returned when the login check fails. -/
def notLoggedInMessage : String := "小红书未登录，请先运行 xiaohongshu-mcp 并完成登录"

/-- `XhsPublisher.publish`.  `dryRun` is `self._dry_run`,
`hostDirConfigured` tells whether `self._images_host_dir` is set,
`publishedAt` is the timestamp taken at entry.  The returned `Except` is
the Python return/raise behaviour; the list is the trace of external
actions performed, in order. -/
def publish (dryRun : Bool) (hostDirConfigured : Bool) (cw : XhsCopywrite)
    (images : List GeneratedImage) (publishedAt : String) (env : PublishEnv) :
    Except String PublishResult × List PubEffect :=
  if dryRun then
    (.ok { status := .dryRun, publishedAt, copywrite := cw, images }, [])
  else if !env.loginOk then
    (.ok { status := .failed, publishedAt, copywrite := cw, images,
           errorMessage := notLoggedInMessage },
     [.loginCheck])
  else
    let copyStep : Except String Unit × List PubEffect :=
      if hostDirConfigured then copyImagesLoop env.copyOk 0 images.length
      else (.ok (), [])
    match copyStep.1 with
    | .error e => (.error e, .loginCheck :: copyStep.2)
    | .ok () =>
      let callResult : Except String PublishResult :=
        match env.remote with
        | .result text =>
          .ok { status := .published, publishedAt, copywrite := cw, images,
                noteId := text.trim }
        | .exn msg tyName =>
          .ok { status := .failed, publishedAt, copywrite := cw, images,
                errorMessage := if msg = "" then tyName else msg }
      (callResult, .loginCheck :: (copyStep.2 ++ [.remoteCall]))

end Eathy

namespace Eathy

/-! ## Pipeline post-publish persistence (`src/eathy/pipeline.py`,
`Pipeline.run` lines 216–222)

Once `publisher.publish` has resolved to a `PublishResult`, the
orchestrator runs `_save_run_output(output_dir, result)` unconditionally
and then `_save_history(...)` exactly when
`publish_result.status.value == "published"`.  Modelled as the list of
persistence actions performed, in order. -/

/-- A persistence action of the pipeline tail. -/
inductive RunEffect
  | saveRunOutput
  | appendHistory (articleId : String)
  deriving DecidableEq, Repr

/-- The persistence actions the pipeline performs after the publish stage
resolves, in source order. -/
def pipelineFinish (selectedArticleId : String) (pr : PublishResult) : List RunEffect :=
  [RunEffect.saveRunOutput] ++
    (if pr.status.value = "published" then [RunEffect.appendHistory selectedArticleId] else [])

end Eathy

namespace Eathy

/-! ## History append (`src/eathy/pipeline.py`, `_save_history`)

`_save_history` reads the prior history file, parses it with
`json.loads` (a `JSONDecodeError` is caught and replaced by `[]`; a
missing file also yields `[]`), calls `.append` on the parsed value and
rewrites the file.  The prior state of the file is modelled by what that
read-and-parse step yields. -/

/-- One element of the rewritten history JSON array: either a history
entry object, or any other JSON value that was already in the prior
array (appending preserves it unchanged). -/
inductive HistJson
  | entry (articleId runId publishedAt : String)
  | other (raw : String)
  deriving DecidableEq, Repr

/-- Prior state of the history file as `_save_history` observes it:
missing, present but unparseable (`json.loads` raises
`JSONDecodeError`), parsed to a JSON array with the given elements, or
parsed to some other JSON value (object, string, number, …) — on which
`.append` raises `AttributeError`, which is not caught. -/
inductive HistoryFileState
  | missing
  | unparseable
  | parsedArray (entries : List HistJson)
  | parsedNonArray
  deriving DecidableEq, Repr

/-- The entries `_save_history` ends up with before appending. -/
def priorEntries : HistoryFileState → List HistJson
  | .missing => []
  | .unparseable => []
  | .parsedArray es => es
  | .parsedNonArray => []

/-- `_save_history`: `.ok` with the rewritten array, or `.error` when a
step raises. -/
def saveHistory (prior : HistoryFileState) (articleId runId publishedAt : String) :
    Except String (List HistJson) :=
  match prior with
  | .missing => .ok [HistJson.entry articleId runId publishedAt]
  | .unparseable => .ok [HistJson.entry articleId runId publishedAt]
  | .parsedArray es => .ok (es ++ [HistJson.entry articleId runId publishedAt])
  | .parsedNonArray => .error "AttributeError: append"

end Eathy

namespace Eathy

/-! ## Collection aggregator (`src/eathy/collect/aggregator.py`)

`collect_all` concatenates the fetched RSS and NewsAPI articles,
deduplicates them by id, filters out ids recorded in the history file
(via `_load_published_ids`), sorts by `published_at` descending and
truncates to `max_candidates`.  The Python `list.sort` is a stable
mergesort; it is modelled by an insertion sort on the same key — only
the fact that sorting permutes the list is used below. -/

/-- One entry of the parsed history array as `_load_published_ids` reads
it: a JSON object that may or may not carry an `"article_id"` field
(entries without the field are skipped by its comprehension). -/
structure HistoryEntryRead where
  articleIdField : Option String
  deriving DecidableEq, Repr

/-- What reading and parsing the history file yields inside
`_load_published_ids`: the file may be missing, unparseable
(`json.loads` raises, caught together with `KeyError`), or parsed to a
list of entry objects. -/
inductive HistoryRead
  | missing
  | unparseable
  | parsed (entries : List HistoryEntryRead)
  deriving DecidableEq, Repr

/-- `_load_published_ids`: the set of already-published article ids,
empty for a missing or unparseable file. -/
def loadPublishedIds : HistoryRead → List String
  | .missing => []
  | .unparseable => []
  | .parsed es => es.filterMap (fun e => e.articleIdField)

/-- The `seen_ids` dedup loop of `collect_all`. -/
def dedupById : List Article → List String → List Article
  | [], _ => []
  | a :: rest, seenIds =>
    if a.id ∈ seenIds then dedupById rest seenIds
    else a :: dedupById rest (a.id :: seenIds)

/-- Insertion step of the descending sort on `published_at`. -/
def insertByDateDesc (a : Article) : List Article → List Article
  | [] => [a]
  | b :: rest =>
    if b.publishedAt ≤ a.publishedAt then a :: b :: rest
    else b :: insertByDateDesc a rest

/-- `all_articles.sort(key=lambda a: a.published_at, reverse=True)`. -/
def sortByDateDesc : List Article → List Article
  | [] => []
  | a :: rest => insertByDateDesc a (sortByDateDesc rest)

/-- `collect_all`, from the point where the fetched source articles have
been concatenated (`fetched = (*rss_articles, *news_articles)`).
`history = none` models `history_file=None`. -/
def collectAll (fetched : List Article) (history : Option HistoryRead)
    (maxCandidates : Nat) : List Article :=
  let deduped := dedupById fetched []
  let filtered :=
    match history with
    | some h => deduped.filter fun a => !((loadPublishedIds h).contains a.id)
    | none => deduped
  (sortByDateDesc filtered).take maxCandidates

end Eathy

namespace Eathy

/-! ## Article selector (`src/eathy/filter/selector.py`, `ArticleSelector.select`)

The AI reply is modelled after `_extract_json(raw)` has succeeded, as
the values the code reads out of the parsed object with their `get`
defaults already applied (`selected_index` default 0, `category` default
"成分分析", and so on).  `int(...)` is assumed to have succeeded — when
`_extract_json` or `int` raises, `select` does not return, which is
outside the claim ("whenever the selection operation returns").  The
`relevance_score` float is omitted: no claim touches it. -/

/-- The values the selector reads from the parsed AI JSON object. -/
structure SelectorReply where
  selectedIndex : Int := 0
  category : String := "成分分析"
  keyPoints : List String := []
  imageSubject : String := "healthy food ingredient analysis"
  reasoning : String := ""
  deriving DecidableEq, Repr

/-- `FilterResult` (minus the float `relevance_score`). -/
structure FilterResult where
  selectedArticle : Article
  category : ContentCategory
  keyPoints : List String
  imageSubject : String
  reasoning : String
  deriving DecidableEq, Repr

/-- `_CATEGORY_MAP.get(category_str)`. -/
def categoryMap (s : String) : Option ContentCategory :=
  if s = "成分分析" then some .ingredientAnalysis
  else if s = "食品避雷" then some .foodWarning
  else if s = "健康替代" then some .healthyAlternative
  else if s = "热点话题" then some .trendingTopic
  else if s = "品牌拆解" then some .brandTeardown
  else none

/-- `_CATEGORY_MAP.get(category_str, ContentCategory.INGREDIENT_ANALYSIS)`. -/
def categoryOf (s : String) : ContentCategory :=
  (categoryMap s).getD .ingredientAnalysis

/-- Python sequence indexing `l[i]`: a negative index counts from the
end; an index out of range on either side raises `IndexError` (`none`). -/
def pyIndex (l : List Article) (i : Int) : Option Article :=
  let j : Int := if i < 0 then i + l.length else i
  if 0 ≤ j then l[j.toNat]? else none

/-- `ArticleSelector.select` after the provider call and JSON extraction. -/
def selectArticle (articles : List Article) (reply : SelectorReply) :
    Except String FilterResult :=
  if articles.isEmpty then .error "候选文章列表为空，无法筛选"
  else
    let idx := if reply.selectedIndex ≥ (articles.length : Int) then 0 else reply.selectedIndex
    match pyIndex articles idx with
    | none => .error "IndexError: list index out of range"
    | some a =>
      .ok { selectedArticle := a
            category := categoryOf reply.category
            keyPoints := reply.keyPoints
            imageSubject := reply.imageSubject
            reasoning := reply.reasoning }

end Eathy

namespace Eathy

/-! ## Style selection (`src/eathy/prompts.py`, `StyleManager.select_best_styles`)

`StyleManager._extract_json` strips markdown fences, locates the first
`\x7b` and the last `\x7d`; when either is absent it returns the empty
dict, otherwise it runs `json.loads` on the slice — which either raises
`JSONDecodeError` (NOT caught by any caller) or yields the parsed
object.  The reply is modelled by which of those three branches it
lands in. -/

/-- `CopywriteStyle`. -/
structure CopywriteStyle where
  id : String
  name : String
  description : String
  systemPrompt : String
  userPrompt : String
  deriving DecidableEq, Repr

/-- `ImageStyle`. -/
structure ImageStyle where
  id : String
  name : String
  description : String
  prompt : String
  deriving DecidableEq, Repr

/-- The two id fields read from the parsed style decision
(`decision.get(...)`: `none` when the field is absent). -/
structure StyleReply where
  copywriteStyleId : Option String
  imageStyleId : Option String
  deriving DecidableEq, Repr

/-- Classification of the AI reply text by the branch
`StyleManager._extract_json` takes on it. -/
inductive StyleJsonOutcome
  | noJson
  | invalidJson
  | parsed (r : StyleReply)
  deriving DecidableEq, Repr

/-- `StyleManager._extract_json`: empty dict when no brace-delimited
slice exists, the parsed object when `json.loads` succeeds, a raised
`JSONDecodeError` otherwise. -/
def extractStyleJson : StyleJsonOutcome → Except String StyleReply
  | .noJson => .ok { copywriteStyleId := none, imageStyleId := none }
  | .invalidJson => .error "json.decoder.JSONDecodeError"
  | .parsed r => .ok r

/-- `StyleManager.select_best_styles` (after the provider call): raises
when both catalogs are not non-empty, propagates whatever
`_extract_json` raises, otherwise picks per axis the first catalog entry
whose id equals the AI-returned id, falling back to the catalog's first
entry. -/
def selectBestStyles (copyStyles : List CopywriteStyle) (imageStyles : List ImageStyle)
    (aiReply : StyleJsonOutcome) : Except String (CopywriteStyle × ImageStyle) :=
  match copyStyles, imageStyles with
  | [], _ => .error "Styles not loaded"
  | _ :: _, [] => .error "Styles not loaded"
  | c0 :: cs, i0 :: irest =>
    match extractStyleJson aiReply with
    | .error e => .error e
    | .ok r =>
      let selectedCopy := (((c0 :: cs).find? fun s => r.copywriteStyleId == some s.id).getD c0)
      let selectedImg := (((i0 :: irest).find? fun s => r.imageStyleId == some s.id).getD i0)
      .ok (selectedCopy, selectedImg)

end Eathy

namespace Eathy

/-! ## Copywrite generation (`src/eathy/copywrite/minimax.py`,
`CopywriteGenerator.generate`)

Modelled after `_extract_json(raw)` has succeeded: the reply carries the
values read with their `get` defaults.  Python `str.strip()` is
`pyStrip`; slicing `s[:n]` on a string is `List.take n` on its
code points. -/

/-- `AccountProfile` (the fields `generate` consumes; the length bounds
come from YAML config and are non-negative counts). -/
structure AccountProfile where
  name : String := ""
  domain : String := ""
  persona : String := ""
  targetAudience : String := ""
  tone : String := ""
  appName : String := ""
  appDownloadCta : String := ""
  titleMaxLength : Nat := 20
  bodyMaxLength : Nat := 1000
  hashtagCount : Nat := 5
  callToAction : String := ""
  deriving DecidableEq, Repr

/-- Python `str.strip()` on the code-point list. -/
def pyStrip (s : List Char) : List Char :=
  ((s.dropWhile Char.isWhitespace).reverse.dropWhile Char.isWhitespace).reverse

/-- The values the generator reads from the parsed AI JSON object
(`data.get("title", "")`, `data.get("body", "")`,
`data.get("hashtags", [])`). -/
structure CopyReply where
  title : List Char := []
  body : List Char := []
  hashtags : List (List Char) := []
  deriving DecidableEq, Repr

/-- `CopywriteGenerator.generate` after the provider call and JSON
extraction: strip, truncate over-long title and body, cap the hashtag
list. -/
def generateCopywrite (reply : CopyReply) (profile : AccountProfile)
    (fr : FilterResult) : XhsCopywrite :=
  let title := pyStrip reply.title
  let body := pyStrip reply.body
  let title' := if title.length > profile.titleMaxLength
    then title.take profile.titleMaxLength else title
  let body' := if body.length > profile.bodyMaxLength
    then body.take profile.bodyMaxLength else body
  { title := title'
    body := body'
    hashtags := reply.hashtags.take profile.hashtagCount
    category := fr.category
    sourceArticleId := fr.selectedArticle.id }

end Eathy

namespace Eathy

/-! ## Image generation (`src/eathy/image/imagen.py`,
`ImagenGenerator.generate`, and pipeline stage 4)

The loop issues `number_of_images` calls; each call either yields image
bytes that are saved under a fresh file name, returns `None` (logged and
skipped), or raises (caught, logged and skipped).  The per-call outcomes
are the explicit input list; its length is `number_of_images`. -/

/-- Outcome of one `_generate_single` call together with the save of its
bytes: `success fileName` when bytes came back and were written. -/
inductive GenOutcome
  | success (fileName : String)
  | noData
  | raised (message : String)
  deriving DecidableEq, Repr

/-- Whether an outcome contributes an image. -/
def isGenSuccess : GenOutcome → Bool
  | .success _ => true
  | .noData => false
  | .raised _ => false

/-- The asset a successful outcome contributes. -/
def succAsset (prompt styleName : String) : GenOutcome → Option GeneratedImage
  | .success fn => some { path := fn, promptUsed := prompt, templateName := styleName }
  | .noData => none
  | .raised _ => none

/-- The generation loop: appends one `GeneratedImage` per successful
call, in request order; failures are skipped. -/
def genLoop (prompt styleName : String) : List GenOutcome → List GeneratedImage
  | [] => []
  | .success fn :: rest =>
    { path := fn, promptUsed := prompt, templateName := styleName } :: genLoop prompt styleName rest
  | .noData :: rest => genLoop prompt styleName rest
  | .raised _ :: rest => genLoop prompt styleName rest

/-- `ImagenGenerator.generate`: raises `RuntimeError` when the loop
produced no image at all, returns the image list otherwise. -/
def imagenGenerate (prompt styleName : String) (outcomes : List GenOutcome) :
    Except String (List GeneratedImage) :=
  let images := genLoop prompt styleName outcomes
  if images.isEmpty then .error "图片生成失败：未获得任何可用图片"
  else .ok images

/-- Pipeline stage 4 (`pipeline.py` lines 155–180): with the skip-images
run option the stage yields `[]` without constructing or invoking the
generator (the result ignores the generation outcomes entirely);
otherwise it runs the generator. -/
def imageStage (skipImages : Bool) (prompt styleName : String)
    (outcomes : List GenOutcome) : Except String (List GeneratedImage) :=
  if skipImages then .ok []
  else imagenGenerate prompt styleName outcomes

end Eathy

/-- A concrete copywrite value used in counterexamples and witnesses. -/
def cw0 : Eathy.XhsCopywrite :=
  { title := "味精真的有害吗".data
    body := "正文内容测试".data
    hashtags := ["健康饮食".data, "成分分析".data]
    category := .ingredientAnalysis
    sourceArticleId := "test-id" }

/-- A concrete image value used in counterexamples and witnesses. -/
def img0 : Eathy.GeneratedImage :=
  { path := "image_00_abcdef12.png", promptUsed := "prompt", templateName := "ingredient_analysis" }

/-- A concrete article (already recorded in the history) used in witnesses. -/
def artA : Eathy.Article :=
  { id := "abc123", title := "奶茶配料表解读", url := "https://example.com/a",
    sourceName := "rss", language := "zh", summary := "摘要A", publishedAt := 2 }

/-- A concrete article (not yet published) used in witnesses. -/
def artB : Eathy.Article :=
  { id := "xyz789", title := "零食热量对比", url := "https://example.com/b",
    sourceName := "news_api", language := "zh", summary := "摘要B", publishedAt := 1 }

/-- A concrete parsed history file recording `abc123` as published. -/
def histAB : Eathy.HistoryRead :=
  .parsed [{ articleIdField := some "abc123" }]

/-- A concrete copywrite style used in style-selection witnesses. -/
def copyStyleA : Eathy.CopywriteStyle :=
  { id := "hard_core", name := "硬核科普", description := "数据驱动",
    systemPrompt := "sys-a", userPrompt := "user-a" }

/-- A second concrete copywrite style. -/
def copyStyleB : Eathy.CopywriteStyle :=
  { id := "emotional", name := "情绪共鸣", description := "故事化",
    systemPrompt := "sys-b", userPrompt := "user-b" }

/-- A concrete image style used in style-selection witnesses. -/
def imgStyleA : Eathy.ImageStyle :=
  { id := "flat_illustration", name := "扁平插画", description := "简洁现代", prompt := "p-a" }

/-- A concrete selector reply with an out-of-range index and an
unrecognized category string. -/
def reply8 : Eathy.SelectorReply :=
  { selectedIndex := 5, category := "未知分类", keyPoints := ["要点1"],
    imageSubject := "bubble tea ingredient chart", reasoning := "品牌相关" }

/-- Concrete per-call image-generation outcomes: one success between two
failures. -/
def outs9 : List Eathy.GenOutcome :=
  [.raised "HTTP 500", .success "image_01_deadbeef.png", .noData]

/-- The filter result `selectArticle [artA, artB] reply8` produces: the
out-of-range index 5 is reset to 0 and the unknown category string falls
back to ingredient-analysis. -/
def fr8 : Eathy.FilterResult :=
  { selectedArticle := artA, category := .ingredientAnalysis, keyPoints := ["要点1"],
    imageSubject := "bubble tea ingredient chart", reasoning := "品牌相关" }

/-- A concrete parsed style decision whose copywrite id is absent from
the catalog and whose image id matches `imgStyleA`. -/
def styleReply3 : Eathy.StyleReply :=
  { copywriteStyleId := some "no_such_style", imageStyleId := some "flat_illustration" }

/-- If every copy in scope succeeds, the copy loop returns normally. -/
theorem copyImagesLoop_ok (copyOk : Nat → Bool) :
    ∀ n start, (∀ i, i < n → copyOk (start + i) = true) →
      (Eathy.copyImagesLoop copyOk start n).1 = .ok () := by
  intro n
  induction n with
  | zero => intro start _; rfl
  | succ m ih =>
    intro start h
    have h0 : copyOk start = true := by
      have := h 0 (Nat.succ_pos m)
      simpa using this
    have hrest : (Eathy.copyImagesLoop copyOk (start + 1) m).1 = .ok () := by
      apply ih
      intro i hi
      have := h (i + 1) (Nat.succ_lt_succ hi)
      simpa [Nat.add_assoc, Nat.add_comm, Nat.add_left_comm] using this
    simp [Eathy.copyImagesLoop, h0, hrest]

/-- C5: with the dry-run option set, `publish` returns the `DryRun`
result and its external-action trace is empty — no login check, no file
copy, no remote call — for every copywrite, image list, remap
configuration and environment (in particular, the result does not depend
on the remote target's state at all). -/
theorem C5_dry_run_pure (hostDirConfigured : Bool) (cw : Eathy.XhsCopywrite)
    (images : List Eathy.GeneratedImage) (publishedAt : String) (env : Eathy.PublishEnv) :
    Eathy.publish true hostDirConfigured cw images publishedAt env =
      (.ok { status := .dryRun, publishedAt, copywrite := cw, images,
             noteId := "", errorMessage := "" }, []) := by
  rfl

/-- C2 counterexample: with a host-to-container remap directory
configured, login passing and the first `shutil.copy2` failing, `publish`
propagates the exception to its caller (the copy loop sits outside the
`try` block), falsifying "the publish operation never propagates an
exception to its caller". -/
theorem C2_copy_failure_propagates :
    (Eathy.publish false true cw0 [img0] "2026-01-01T00:00:00+00:00"
        { loginOk := true, copyOk := fun _ => false, remote := .result "ok" }).1 =
      .error "shutil.copy2 failed" := by
  rfl

/-- C2 (amended): when not in dry-run, with the login check passing and
every local file copy succeeding (vacuously so when no remap directory is
configured), any exception of the remote call — unreachable target, HTTP
error, malformed response, remote-side error — is returned as a `Failed`
result with a non-empty error message (`str(exc) or type(exc).__name__`;
Python type names are non-empty), never as a propagating exception. -/
theorem C2_remote_failure_returned_as_failed (hostDirConfigured : Bool)
    (cw : Eathy.XhsCopywrite) (images : List Eathy.GeneratedImage)
    (publishedAt : String) (env : Eathy.PublishEnv) (msg tyName : String)
    (hLogin : env.loginOk = true)
    (hCopy : ∀ i, i < images.length → env.copyOk i = true)
    (hRemote : env.remote = .exn msg tyName)
    (hTy : tyName ≠ "") :
    ∃ r, (Eathy.publish false hostDirConfigured cw images publishedAt env).1 = .ok r ∧
      r.status = .failed ∧ r.errorMessage ≠ "" := by
  have hcopy1 : (if hostDirConfigured then
      Eathy.copyImagesLoop env.copyOk 0 images.length
    else (.ok (), [])).1 = Except.ok () := by
    cases hostDirConfigured with
    | false => rfl
    | true =>
      simpa using copyImagesLoop_ok env.copyOk images.length 0
        (by intro i hi; simpa using hCopy i hi)
  refine ⟨{ status := .failed, publishedAt, copywrite := cw, images,
            errorMessage := if msg = "" then tyName else msg }, ?_, rfl, ?_⟩
  · simp only [Eathy.publish, hLogin, hRemote, Bool.not_true, Bool.false_eq_true, if_false,
      if_neg (by simp : ¬False)]
    split
    · next heq => rw [hcopy1] at heq; exact absurd heq (by simp)
    · rfl
  · by_cases hmsg : msg = "" <;> simp [hmsg, hTy]

/-- C1: the claim says the scheduler's next-run computation returns the
chronologically earliest candidate strictly after `now` (before jitter).
The code instead returns `candidates[0]`, the first surviving candidate in
(time-of-day, day-offset) enumeration order. At local now = 10:00 with
schedule times {08:00, 12:00}, the code's base slot is 08:00 *tomorrow*
(minute 1920), although 12:00 *today* (minute 720) is a candidate strictly
after now and strictly earlier — contradicting both the claim and the
function's own docstring ("find the nearest execution time today or
tomorrow"). With zero jitter, `nextRun` returns 1920, not 720. -/
theorem C1_scheduler_not_earliest :
    Eathy.nextRunBase 600 [480, 720] = 1920 ∧
    Eathy.earliestCandidate 600 [480, 720] = some 720 ∧
    720 ∈ Eathy.schedCandidates 600 [480, 720] ∧
    600 < 720 ∧ (720 : Nat) < 1920 ∧
    Eathy.nextRun 600 [480, 720] 0 = 1920 := by decide

/-- Witness for the amended C2 theorem at a concrete input: remap
directory configured, both copies succeeding, the remote call raising an
exception whose `str` is empty (so the type name is used). -/
theorem C2_remote_failure_returned_as_failed_witness :
    ∃ r, (Eathy.publish false true cw0 [img0] "2026-01-01T00:00:00+00:00"
        { loginOk := true, copyOk := fun _ => true,
          remote := .exn "" "ConnectError" }).1 = .ok r ∧
      r.status = .failed ∧ r.errorMessage ≠ "" :=
  C2_remote_failure_returned_as_failed true cw0 [img0] "2026-01-01T00:00:00+00:00"
    { loginOk := true, copyOk := fun _ => true, remote := .exn "" "ConnectError" }
    "" "ConnectError" rfl (fun _ _ => rfl) rfl (by decide)

/-- C4: after the publish stage resolves, the pipeline always performs
the run-artifact save, and appends a history entry keyed by the selected
article's id exactly when the publish outcome's status is `Published` —
never for `Failed`, `DryRun` or `Pending`. -/
theorem C4_persist_always_history_iff_published (aid : String) (pr : Eathy.PublishResult) :
    Eathy.RunEffect.saveRunOutput ∈ Eathy.pipelineFinish aid pr ∧
    (Eathy.RunEffect.appendHistory aid ∈ Eathy.pipelineFinish aid pr ↔
      pr.status = .published) := by
  constructor
  · simp [Eathy.pipelineFinish]
  · cases h : pr.status <;>
      simp [Eathy.pipelineFinish, Eathy.PublishStatus.value, h]

/-- C10 counterexample: when the prior history file parses to a JSON
value that is not an array (for example the file containing `{}`), the
`.append` call raises `AttributeError`, which `_save_history` does not
catch — falsifying "for every prior state of the history file, the
history-append operation never raises". -/
theorem C10_non_array_raises :
    Eathy.saveHistory .parsedNonArray "abc123" "20260101_000000_ab12cd" "2026-01-01" =
      .error "AttributeError: append" := rfl

/-- C10 (amended): for every prior state that is missing, unparseable,
or parses to a JSON array, the history append returns normally and
rewrites the file as the prior entries followed by the new
`{article_id, run_id, published_at}` entry; an unparseable prior file
contributes no entries, so all previously recorded ids are silently
discarded.  (A prior file parsing to valid non-array JSON instead makes
`.append` raise.) -/
theorem C10_append_semantics (prior : Eathy.HistoryFileState) (aid rid ts : String)
    (h : prior ≠ .parsedNonArray) :
    Eathy.saveHistory prior aid rid ts =
      .ok (Eathy.priorEntries prior ++ [Eathy.HistJson.entry aid rid ts]) ∧
    Eathy.priorEntries .unparseable = [] := by
  cases prior <;> simp_all [Eathy.saveHistory, Eathy.priorEntries]

/-- Witness for the amended C10 theorem: an unparseable prior file is
rewritten as the one-entry array. -/
theorem C10_append_semantics_witness :
    Eathy.saveHistory .unparseable "abc123" "20260101_000000_ab12cd" "2026-01-01" =
      .ok [Eathy.HistJson.entry "abc123" "20260101_000000_ab12cd" "2026-01-01"] ∧
    Eathy.priorEntries .unparseable = [] :=
  C10_append_semantics .unparseable "abc123" "20260101_000000_ab12cd" "2026-01-01" (by decide)

/-- C7: whatever the parsed AI reply and the account profile, the
generated copywrite's title and body never exceed the profile's
configured maximum lengths and the hashtag list never exceeds the
configured count — over-long output is truncated, not rejected. -/
theorem C7_truncation_invariants (reply : Eathy.CopyReply) (profile : Eathy.AccountProfile)
    (fr : Eathy.FilterResult) :
    (Eathy.generateCopywrite reply profile fr).title.length ≤ profile.titleMaxLength ∧
    (Eathy.generateCopywrite reply profile fr).body.length ≤ profile.bodyMaxLength ∧
    (Eathy.generateCopywrite reply profile fr).hashtags.length ≤ profile.hashtagCount := by
  refine ⟨?_, ?_, ?_⟩
  · simp only [Eathy.generateCopywrite]
    split <;> simp_all [List.length_take]
  · simp only [Eathy.generateCopywrite]
    split <;> simp_all [List.length_take]
  · simp only [Eathy.generateCopywrite]
    exact List.length_take_le _ _

/-- The generation loop collects exactly the successful outcomes' assets,
in request order. -/
theorem genLoop_eq_filterMap (p sn : String) (outcomes : List Eathy.GenOutcome) :
    Eathy.genLoop p sn outcomes = outcomes.filterMap (Eathy.succAsset p sn) := by
  induction outcomes with
  | nil => rfl
  | cons o rest ih =>
    cases o <;> simp [Eathy.genLoop, Eathy.succAsset, List.filterMap_cons, ih]

/-- The generation loop produces one asset per successful outcome. -/
theorem genLoop_length (p sn : String) (outcomes : List Eathy.GenOutcome) :
    (Eathy.genLoop p sn outcomes).length = (outcomes.filter Eathy.isGenSuccess).length := by
  induction outcomes with
  | nil => rfl
  | cons o rest ih =>
    cases o <;> simp [Eathy.genLoop, Eathy.isGenSuccess, List.filter_cons, ih]

/-- C9: with the skip-images option the pipeline stage yields the empty
asset list without consulting the generation outcomes at all and is not
fatal; otherwise, when `k` of the issued calls succeed, the generator
returns exactly the `k` successful assets in request order for `k > 0`
and raises for `k = 0`. -/
theorem C9_image_stage (p sn : String) (outcomes : List Eathy.GenOutcome) :
    Eathy.imageStage true p sn outcomes = .ok [] ∧
    (0 < (outcomes.filter Eathy.isGenSuccess).length →
      Eathy.imagenGenerate p sn outcomes =
        .ok (outcomes.filterMap (Eathy.succAsset p sn)) ∧
      (outcomes.filterMap (Eathy.succAsset p sn)).length =
        (outcomes.filter Eathy.isGenSuccess).length) ∧
    ((outcomes.filter Eathy.isGenSuccess).length = 0 →
      Eathy.imagenGenerate p sn outcomes = .error "图片生成失败：未获得任何可用图片") := by
  refine ⟨rfl, ?_, ?_⟩
  · intro hk
    have hlen := genLoop_length p sn outcomes
    have hne : Eathy.genLoop p sn outcomes ≠ [] := by
      intro hnil
      rw [hnil] at hlen
      simp at hlen
      omega
    have hEmpty : (Eathy.genLoop p sn outcomes).isEmpty = false := by
      cases hgl : Eathy.genLoop p sn outcomes with
      | nil => exact absurd hgl hne
      | cons a as => rfl
    constructor
    · simp only [Eathy.imagenGenerate, hEmpty, if_neg Bool.false_ne_true]
      rw [genLoop_eq_filterMap]
    · rw [← genLoop_eq_filterMap p sn outcomes]
      exact hlen
  · intro hk
    have hnil : Eathy.genLoop p sn outcomes = [] := by
      have := genLoop_length p sn outcomes
      rw [hk] at this
      exact List.length_eq_zero.mp this
    simp [Eathy.imagenGenerate, hnil]

/-- Witness for C9: one success among three calls yields exactly that
asset. -/
theorem C9_image_stage_witness :
    Eathy.imagenGenerate "p" "style" outs9 =
      .ok [{ path := "image_01_deadbeef.png", promptUsed := "p", templateName := "style" }] :=
  ((C9_image_stage "p" "style" outs9).2.1 (by decide)).1

/-- Inserting into the descending sort preserves membership. -/
theorem mem_insertByDateDesc (a x : Eathy.Article) (l : List Eathy.Article) :
    x ∈ Eathy.insertByDateDesc a l ↔ x = a ∨ x ∈ l := by
  induction l with
  | nil => simp [Eathy.insertByDateDesc]
  | cons b rest ih =>
    simp only [Eathy.insertByDateDesc]
    split
    · simp
    · simp only [List.mem_cons, ih]
      tauto

/-- The descending sort preserves membership. -/
theorem mem_sortByDateDesc (x : Eathy.Article) (l : List Eathy.Article) :
    x ∈ Eathy.sortByDateDesc l ↔ x ∈ l := by
  induction l with
  | nil => simp [Eathy.sortByDateDesc]
  | cons a rest ih =>
    simp [Eathy.sortByDateDesc, mem_insertByDateDesc, ih]

/-- C6: every article in the collection output has an id outside the
history file's recorded `article_id` set — even when the fetched input
re-offers already-published articles — and a missing or unparseable
history file yields the empty exclusion set (collection proceeds instead
of failing). -/
theorem C6_dedup_excludes_history (fetched : List Eathy.Article) (h : Eathy.HistoryRead)
    (maxCandidates : Nat) :
    (∀ a ∈ Eathy.collectAll fetched (some h) maxCandidates,
      a.id ∉ Eathy.loadPublishedIds h) ∧
    Eathy.loadPublishedIds .missing = [] ∧
    Eathy.loadPublishedIds .unparseable = [] := by
  refine ⟨?_, rfl, rfl⟩
  intro a ha
  simp only [Eathy.collectAll] at ha
  have h1 := List.mem_of_mem_take ha
  rw [mem_sortByDateDesc] at h1
  have h2 := (List.mem_filter.mp h1).2
  intro hmem
  rw [Bool.not_eq_eq_eq_not, Bool.not_true] at h2
  have h3 : List.elem a.id (Eathy.loadPublishedIds h) = false := h2
  rw [List.elem_eq_mem, decide_eq_false_iff_not] at h3
  exact h3 hmem

/-- Witness for C6: the spec's scenario — history records `abc123`, the
upstream re-offers it next to `xyz789`; the surviving article `artB` has
an id outside the exclusion set. -/
theorem C6_dedup_excludes_history_witness :
    artB ∈ Eathy.collectAll [artA, artB] (some histAB) 15 ∧
    artB.id ∉ Eathy.loadPublishedIds histAB :=
  ⟨by decide, (C6_dedup_excludes_history [artA, artB] histAB 15).1 artB (by decide)⟩

/-- A successful Python index access returns an element of the list. -/
theorem pyIndex_mem (l : List Eathy.Article) (i : Int) (a : Eathy.Article)
    (h : Eathy.pyIndex l i = some a) : a ∈ l := by
  simp only [Eathy.pyIndex] at h
  split at h <;> split at h <;>
    first
      | exact List.getElem?_mem h
      | exact absurd h (by simp)

/-- C8: whenever the selector returns a `FilterResult`, the selected
article is an element of the input candidate list, the category belongs
to the closed five-value enum, and every category string outside the
five recognized values maps to ingredient-analysis. -/
theorem C8_selection_invariants (articles : List Eathy.Article)
    (reply : Eathy.SelectorReply) (fr : Eathy.FilterResult)
    (h : Eathy.selectArticle articles reply = .ok fr) :
    fr.selectedArticle ∈ articles ∧
    fr.category ∈ [Eathy.ContentCategory.ingredientAnalysis, .foodWarning,
      .healthyAlternative, .trendingTopic, .brandTeardown] ∧
    ∀ s : String, s ∉ ["成分分析", "食品避雷", "健康替代", "热点话题", "品牌拆解"] →
      Eathy.categoryOf s = .ingredientAnalysis := by
  refine ⟨?_, ?_, ?_⟩
  · simp only [Eathy.selectArticle] at h
    split at h
    · exact absurd h (by simp)
    · split at h
      · exact absurd h (by simp)
      · next a heq =>
        obtain rfl : fr.selectedArticle = a := by
          cases h
          rfl
        exact pyIndex_mem _ _ _ heq
  · cases fr.category <;> simp
  · intro s hs
    simp only [List.mem_cons, List.not_mem_nil, or_false, not_or] at hs
    obtain ⟨h1, h2, h3, h4, h5⟩ := hs
    simp [Eathy.categoryOf, Eathy.categoryMap, h1, h2, h3, h4, h5]

/-- Witness for C8: two candidates, an out-of-range index 5 and the
unrecognized category string "未知分类" yield the first candidate with the
ingredient-analysis category. -/
theorem C8_selection_invariants_witness :
    fr8.selectedArticle ∈ [artA, artB] ∧
    fr8.category ∈ [Eathy.ContentCategory.ingredientAnalysis, .foodWarning,
      .healthyAlternative, .trendingTopic, .brandTeardown] ∧
    ∀ s : String, s ∉ ["成分分析", "食品避雷", "健康替代", "热点话题", "品牌拆解"] →
      Eathy.categoryOf s = .ingredientAnalysis :=
  C8_selection_invariants [artA, artB] reply8 fr8 rfl

/-- `next((s for s in l if pred s), l[0])` yields an element of the list
when the default is one. -/
theorem find_getD_mem {α : Type} (p : α → Bool) (l : List α) (d : α) (hd : d ∈ l) :
    (l.find? p).getD d ∈ l := by
  cases hf : l.find? p with
  | none => simpa using hd
  | some a => simpa using List.mem_of_find?_eq_some hf

/-- When some element satisfies the predicate, the found element does. -/
theorem find_getD_pred {α : Type} (p : α → Bool) (l : List α) (d : α)
    (h : ∃ x ∈ l, p x = true) : p ((l.find? p).getD d) = true := by
  cases hf : l.find? p with
  | none =>
    obtain ⟨x, hx, hpx⟩ := h
    have := List.find?_eq_none.mp hf x hx
    simp_all
  | some a => simpa using List.find?_some hf

/-- When no element satisfies the predicate, the default is returned. -/
theorem find_getD_of_none {α : Type} (p : α → Bool) (l : List α) (d : α)
    (h : ∀ x ∈ l, p x = false) : (l.find? p).getD d = d := by
  have hf : l.find? p = none := List.find?_eq_none.mpr (by intro x hx; simp [h x hx])
  simp [hf]

/-- C3 counterexample: an AI reply containing a brace-delimited slice
that is not valid JSON (for example the reply text `"{x}"`) makes
`json.loads` raise inside `_extract_json`, and `select_best_styles` does
not catch it — falsifying "the style-selection operation never raises"
for replies with invalid JSON, even with non-empty catalogs. -/
theorem C3_invalid_json_raises :
    Eathy.selectBestStyles [copyStyleA, copyStyleB] [imgStyleA] .invalidJson =
      .error "json.decoder.JSONDecodeError" := rfl

/-- C3 (amended): for every AI reply that does not make `json.loads`
raise — i.e. one with no brace-delimited JSON slice at all, or one whose
slice parses — style selection with non-empty catalogs never raises, and
for each axis returns the first catalog entry matching the AI-returned
id when one exists, otherwise that catalog's first entry (in particular
for replies with no JSON or with missing id fields). -/
theorem C3_style_fallback (c0 : Eathy.CopywriteStyle) (cs : List Eathy.CopywriteStyle)
    (i0 : Eathy.ImageStyle) (irest : List Eathy.ImageStyle)
    (aiReply : Eathy.StyleJsonOutcome) (hv : aiReply ≠ .invalidJson) :
    ∃ p, Eathy.selectBestStyles (c0 :: cs) (i0 :: irest) aiReply = .ok p ∧
      p.1 ∈ c0 :: cs ∧ p.2 ∈ i0 :: irest ∧
      (∀ r, aiReply = .parsed r →
        ((∃ s ∈ c0 :: cs, r.copywriteStyleId = some s.id) →
          r.copywriteStyleId = some p.1.id) ∧
        ((∀ s ∈ c0 :: cs, r.copywriteStyleId ≠ some s.id) → p.1 = c0) ∧
        ((∃ s ∈ i0 :: irest, r.imageStyleId = some s.id) →
          r.imageStyleId = some p.2.id) ∧
        ((∀ s ∈ i0 :: irest, r.imageStyleId ≠ some s.id) → p.2 = i0)) ∧
      (aiReply = .noJson → p = (c0, i0)) := by
  cases aiReply with
  | invalidJson => exact absurd rfl hv
  | noJson =>
    have hc : ((c0 :: cs).find? fun s => (none : Option String) == some s.id) = none :=
      List.find?_eq_none.mpr (by
        intro x hx
        rw [show ((none : Option String) == some x.id) = false from rfl]
        simp)
    have hi : ((i0 :: irest).find? fun s => (none : Option String) == some s.id) = none :=
      List.find?_eq_none.mpr (by
        intro x hx
        rw [show ((none : Option String) == some x.id) = false from rfl]
        simp)
    refine ⟨(c0, i0), ?_, List.mem_cons_self c0 cs, List.mem_cons_self i0 irest, ?_, fun _ => rfl⟩
    · have hdef : Eathy.selectBestStyles (c0 :: cs) (i0 :: irest) .noJson =
          .ok ((((c0 :: cs).find? fun s => (none : Option String) == some s.id).getD c0),
               (((i0 :: irest).find? fun s => (none : Option String) == some s.id).getD i0)) :=
        rfl
      rw [hdef, hc, hi]
      rfl
    · intro r hcontra
      exact absurd hcontra (by simp)
  | parsed r =>
    refine ⟨(((c0 :: cs).find? fun s => r.copywriteStyleId == some s.id).getD c0,
             ((i0 :: irest).find? fun s => r.imageStyleId == some s.id).getD i0),
            ?_, find_getD_mem _ _ _ (List.mem_cons_self c0 cs),
            find_getD_mem _ _ _ (List.mem_cons_self i0 irest), ?_, ?_⟩
    · rfl
    · intro r' hr'
      have hrr : r = r' := by injection hr'
      subst hrr
      refine ⟨?_, ?_, ?_, ?_⟩
      · intro hex
        have hex' : ∃ x ∈ c0 :: cs, (r.copywriteStyleId == some x.id) = true := by
          obtain ⟨s, hs, he⟩ := hex
          exact ⟨s, hs, by simp [he]⟩
        simpa using find_getD_pred _ _ c0 hex'
      · intro hall
        exact find_getD_of_none _ _ _ (by intro x hx; simp [hall x hx])
      · intro hex
        have hex' : ∃ x ∈ i0 :: irest, (r.imageStyleId == some x.id) = true := by
          obtain ⟨s, hs, he⟩ := hex
          exact ⟨s, hs, by simp [he]⟩
        simpa using find_getD_pred _ _ i0 hex'
      · intro hall
        exact find_getD_of_none _ _ _ (by intro x hx; simp [hall x hx])
    · intro hcontra
      exact absurd hcontra (by simp)

/-- Witness for the amended C3 theorem: a parsed reply whose copywrite
id is unknown and whose image id matches the only image style. -/
theorem C3_style_fallback_witness :
    ∃ p, Eathy.selectBestStyles (copyStyleA :: [copyStyleB]) (imgStyleA :: [])
        (.parsed styleReply3) = .ok p ∧
      p.1 ∈ copyStyleA :: [copyStyleB] ∧ p.2 ∈ imgStyleA :: ([] : List Eathy.ImageStyle) ∧
      (∀ r, (Eathy.StyleJsonOutcome.parsed styleReply3) = .parsed r →
        ((∃ s ∈ copyStyleA :: [copyStyleB], r.copywriteStyleId = some s.id) →
          r.copywriteStyleId = some p.1.id) ∧
        ((∀ s ∈ copyStyleA :: [copyStyleB], r.copywriteStyleId ≠ some s.id) →
          p.1 = copyStyleA) ∧
        ((∃ s ∈ imgStyleA :: ([] : List Eathy.ImageStyle), r.imageStyleId = some s.id) →
          r.imageStyleId = some p.2.id) ∧
        ((∀ s ∈ imgStyleA :: ([] : List Eathy.ImageStyle), r.imageStyleId ≠ some s.id) →
          p.2 = imgStyleA)) ∧
      ((Eathy.StyleJsonOutcome.parsed styleReply3) = .noJson → p = (copyStyleA, imgStyleA)) :=
  C3_style_fallback copyStyleA [copyStyleB] imgStyleA [] (.parsed styleReply3) (by decide)
